import Mathlib

/-!
Shallow embedding of the Obsidillama chat plugin (`src/main.ts`).

The plugin renders a chat panel.  `ChatView.handleSendMessage` reads the
input field, guards against re-entry via the `isGenerating` flag, appends a
user message, optionally splices the current note's text into a prompt
template, performs one HTTP POST via `ChatView.getLLAMAResponse`, appends the
assistant's reply on success, shows a notice on failure, and clears the flag
in a `finally` block.

Modelling conventions:
  * JavaScript values flowing out of `response.json()` are a `Json` tree;
    a possibly-`undefined` JavaScript value is `Option Json` (`none` =
    `undefined`).
  * The DOM side effects of `addMessage` are modelled as appending to a list
    of `ChatMessage`s; `new Notice(...)` as appending to a list of notice
    strings; each `fetch` as appending the prompt string to a list of
    issued calls.
  * Nondeterministic inputs (the clock, the workspace contents, file reads,
    the network outcome) are passed explicitly in an `Env` record.
  * JavaScript `String.prototype.replace` with a string pattern replaces only
    the first occurrence and runs the ECMAScript GetSubstitution scan over
    the replacement string, interpreting its `$`-escape sequences; both are
    modelled (`jsReplace`, `getSubstitution`).
-/

namespace Obsidillama

/-- Parsed JSON value, the result of a successful `response.json()`. -/
inductive Json where
  | null
  | bool (b : Bool)
  | num (n : Int)
  | str (s : String)
  | arr (elems : List Json)
  | obj (fields : List (String × Json))

/-- JavaScript exception values thrown in the paths the plugin exercises:
`Error` (thrown explicitly on a bad HTTP status), `TypeError` (a failed
`fetch`, or property access on `null`), `SyntaxError` (a failed JSON parse). -/
inductive JsError where
  | error (msg : String)
  | typeError (msg : String)
  | syntaxError (msg : String)
deriving DecidableEq

/-- JavaScript string rendering of an exception, as produced by
`'...' + error`. -/
def errorText : JsError → String
  | .error m => "Error: " ++ m
  | .typeError m => "TypeError: " ++ m
  | .syntaxError m => "SyntaxError: " ++ m

/-- `sender: 'user' | 'assistant'` of the `ChatMessage` interface. -/
inductive Sender where
  | user
  | assistant
deriving DecidableEq

/-- The `ChatMessage` interface of `main.ts`.  The TypeScript type of
`content` is `string`, but at runtime the assistant message stores
`data.response` unchecked, which may be any JavaScript value including
`undefined`; so `content` is modelled as a JavaScript value. -/
structure ChatMessage where
  id : String
  content : Option Json
  sender : Sender
  timestamp : Nat

/-- Does the character list `p` begin the character list `s`? -/
def startsWith : List Char → List Char → Bool
  | _, [] => true
  | [], _ :: _ => false
  | c :: cs, p :: ps => c = p && startsWith cs ps

/-- Index of the first occurrence of `pat` in `s`, as in
`String.prototype.indexOf`. -/
def firstIdx (pat : List Char) : List Char → Option Nat
  | [] => if startsWith [] pat then some 0 else none
  | c :: rest =>
    if startsWith (c :: rest) pat then some 0
    else (firstIdx pat rest).map (· + 1)

/-- The ECMAScript GetSubstitution scan over a replacement string, for a
string-valued (hence capture-group-free) search: `$$` yields one literal `$`;
`$&` yields `matched`, the matched text; `$` followed by the code-96
character (a backtick) yields `before`, the text preceding the match; `$`
followed by the code-39 character (an apostrophe) yields `after`, the text
following the match; any other `$` — including `$` before a digit or before
`<`, since a string search has no capture groups — is kept literally.
Characters are compared by code point: 36 is `$`, 38 is `&`. -/
def getSubstitution (matched before after : List Char) : List Char → List Char
  | [] => []
  | [c] => [c]
  | c :: d :: rest =>
    if c.toNat = 36 then
      if d.toNat = 36 then c :: getSubstitution matched before after rest
      else if d.toNat = 38 then matched ++ getSubstitution matched before after rest
      else if d.toNat = 96 then before ++ getSubstitution matched before after rest
      else if d.toNat = 39 then after ++ getSubstitution matched before after rest
      else c :: getSubstitution matched before after (d :: rest)
    else c :: getSubstitution matched before after (d :: rest)

/-- First-occurrence replacement on character lists, with the replacement
text processed by the GetSubstitution scan as JavaScript does. -/
def replaceFirstL (s pat repl : List Char) : List Char :=
  match firstIdx pat s with
  | none => s
  | some i =>
    s.take i ++ getSubstitution pat (s.take i) (s.drop (i + pat.length)) repl
      ++ s.drop (i + pat.length)

/-- JavaScript `s.replace(pat, repl)` with a string pattern: replaces only the
first occurrence of `pat` with `repl` after `$`-escape processing; if `pat`
does not occur, returns `s` unchanged. -/
def jsReplace (s pat repl : String) : String :=
  ⟨replaceFirstL s.data pat.data repl.data⟩

/-- A replacement text containing no `$` (code point 36) passes through the
GetSubstitution scan unchanged, so for such text `jsReplace` splices it
literally. -/
lemma getSubstitution_of_noDollar (matched before after : List Char) :
    ∀ r : List Char, (∀ c ∈ r, c.toNat ≠ 36) →
      getSubstitution matched before after r = r := by
  intro r
  induction r with
  | nil => intro _; rfl
  | cons c rest ih =>
    intro hr
    cases rest with
    | nil => rfl
    | cons d rest2 =>
      have hc : c.toNat ≠ 36 := hr c (List.mem_cons_self c (d :: rest2))
      have hrest : ∀ x ∈ d :: rest2, x.toNat ≠ 36 :=
        fun x hx => hr x (List.mem_cons_of_mem c hx)
      simp only [getSubstitution]
      rw [if_neg hc, ih hrest]

/-- JavaScript `String.prototype.trim`. -/
def jsTrim (s : String) : String :=
  ⟨((s.data.dropWhile Char.isWhitespace).reverse.dropWhile Char.isWhitespace).reverse⟩

/-- First binding of `key` in a parsed JSON object's field list (a parsed
object holds each key at most once). -/
def lookupField : List (String × Json) → String → Option Json
  | [], _ => none
  | (k, v) :: rest, key => if k = key then some v else lookupField rest key

/-- JavaScript property access `j[key]` on a parsed JSON value: a `TypeError`
on `null`, the bound value or `undefined` on an object, `undefined` on any
other primitive or array. -/
def jsGet (j : Json) (key : String) : Except JsError (Option Json) :=
  match j with
  | .null => .error (.typeError ("Cannot read properties of null (reading " ++ key ++ ")"))
  | .obj fields => .ok (lookupField fields key)
  | _ => .ok none

/-- Outcome of `response.json()`: either the body was not valid JSON
(the promise rejects with a `SyntaxError`), or it parsed to a value. -/
inductive BodyRead where
  | invalid (msg : String)
  | value (j : Json)

/-- Outcome of the single `fetch`: either the transport failed (the promise
rejects with a `TypeError`), or a response arrived with an HTTP status and a
body.  `response.ok` is status ∈ [200, 299], per the fetch specification. -/
inductive FetchOutcome where
  | networkError (msg : String)
  | response (status : Nat) (body : BodyRead)

/-- `ChatView.getLLAMAResponse` (main.ts lines 183–209), as a function of the
fetch outcome.  Checks `response.ok`, throwing
`Error("HTTP error! status: " + status)` when false; otherwise awaits
`response.json()` and returns `data.response` with no check that the field is
present or is a string.  The surrounding try/catch logs and rethrows, so
errors pass through unmodified. -/
def getLLAMAResponse (outcome : FetchOutcome) : Except JsError (Option Json) :=
  match outcome with
  | .networkError msg => .error (.typeError msg)
  | .response status body =>
    if 200 ≤ status ∧ status ≤ 299 then
      match body with
      | .invalid msg => .error (.syntaxError msg)
      | .value j => jsGet j "response"
    else
      .error (.error ("HTTP error! status: " ++ toString status))

/-- A markdown view; `file` is `null`-able in Obsidian, modelled by `Option`
over an abstract file identifier. -/
structure MdView where
  file : Option Nat

/-- The view held by a workspace leaf of type `markdown`: either an actual
`MarkdownView` or some other (e.g. deferred) view. -/
inductive LeafView where
  | markdown (v : MdView)
  | other

/-- The workspace facts `getCurrentNoteContent` consults: the result of
`getActiveViewOfType(MarkdownView)` and of `getLeavesOfType('markdown')`. -/
structure Workspace where
  activeMd : Option MdView
  markdownLeaves : List LeafView

/-- `ChatView.getCurrentNoteContent` (main.ts lines 83–125) as a function of
the workspace and a file-read oracle.  Returns the note text or `none`,
paired with the notices it shows.  Takes the active markdown view, else the
last markdown leaf whose view is a `MarkdownView`; with no view at all it
shows a notice and returns `null`; with a view lacking a file, or a failing
`vault.read`, it returns `null` silently. -/
def getCurrentNoteContent (w : Workspace) (read : Nat → Except String String) :
    Option String × List String :=
  let activeView : Option MdView :=
    match w.activeMd with
    | some v => some v
    | none =>
      match w.markdownLeaves.getLast? with
      | some (.markdown v) => some v
      | _ => none
  match activeView with
  | none => (none, ["Please open a note to use as context"])
  | some v =>
    match v.file with
    | none => (none, [])
    | some f =>
      match read f with
      | .ok content => (some content, [])
      | .error _ => (none, [])

/-- The settings fields `handleSendMessage` reads (`ChatPluginSettings` minus
the unused `chatHistory`/`maxHistory` replay machinery). -/
structure ChatPluginSettings where
  maxHistory : Nat
  llamaEndpoint : String
  includeContext : Bool
  contextPrompt : String

/-- The mutable state of a `ChatView` that `handleSendMessage` touches: the
rendered message list, the text area's value, and the `isGenerating` flag
(`false` = the spec's `Idle` state, `true` = `AwaitingReply`). -/
structure ViewState where
  messages : List ChatMessage
  inputValue : String
  isGenerating : Bool

/-- The nondeterministic inputs of one `handleSendMessage` run: the workspace,
the file-read oracle, the outcome of the (at most one) fetch, and the values
returned by the four `Date.now()` calls (`tu1`/`tu2` for the user message's
`id`/`timestamp`, `ta1`/`ta2` for the assistant message's). -/
structure Env where
  workspace : Workspace
  read : Nat → Except String String
  fetch : FetchOutcome
  tu1 : Nat
  tu2 : Nat
  ta1 : Nat
  ta2 : Nat

/-- Observable result of one `handleSendMessage` run: the final view state,
the notices shown (in order), and the prompts of the network calls issued. -/
structure RunResult where
  state : ViewState
  notices : List String
  calls : List String

/-- `ChatView.handleSendMessage` (main.ts lines 127–181).

* Lines 128–131: if `isGenerating`, show a notice and return.
* Lines 133–134: trim the input; if empty (JS falsy), return.
* Lines 136–144: build the user message from `Date.now()`, append it
  (`addMessage`), clear the input field.
* Line 145: set `isGenerating = true`.
* Lines 147–165: if `includeContext`, fetch the note text; the JS guard
  `if (noteContent)` uses it only when it is neither `null` nor the empty
  string, substituting the first `{context}` and then the first `{prompt}`
  occurrence in the template.
* Lines 167–174: await `getLLAMAResponse`; on success append the assistant
  message built from `Date.now()` and the returned value.
* Lines 175–177: on any thrown error show `'Error getting response from
  LLAMA: ' + error`.
* Lines 178–180: `finally { this.isGenerating = false }`. -/
def handleSendMessage (settings : ChatPluginSettings) (env : Env) (s : ViewState) :
    RunResult :=
  if s.isGenerating then
    { state := s
      notices := ["Please wait for the current response to complete"]
      calls := [] }
  else
    let content := jsTrim s.inputValue
    if content = "" then
      { state := s, notices := [], calls := [] }
    else
      let message : ChatMessage :=
        { id := toString env.tu1, content := some (.str content)
          sender := .user, timestamp := env.tu2 }
      let s1 : ViewState :=
        { messages := s.messages ++ [message], inputValue := "", isGenerating := true }
      let ctx : Option String × List String :=
        if settings.includeContext then getCurrentNoteContent env.workspace env.read
        else (none, [])
      let finalPrompt : String :=
        match ctx.1 with
        | some noteContent =>
          if noteContent = "" then content
          else jsReplace (jsReplace settings.contextPrompt "{context}" noteContent)
                 "{prompt}" content
        | none => content
      match getLLAMAResponse env.fetch with
      | .ok v =>
        let assistantMessage : ChatMessage :=
          { id := toString env.ta1, content := v
            sender := .assistant, timestamp := env.ta2 }
        { state := { messages := s1.messages ++ [assistantMessage]
                     inputValue := s1.inputValue, isGenerating := false }
          notices := ctx.2
          calls := [finalPrompt] }
      | .error e =>
        { state := { messages := s1.messages, inputValue := s1.inputValue
                     isGenerating := false }
          notices := ctx.2 ++ ["Error getting response from LLAMA: " ++ errorText e]
          calls := [finalPrompt] }

/-- One user submission: the user types `text` into the input field, then the
send handler runs. -/
def submit (settings : ChatPluginSettings) (env : Env) (text : String)
    (s : ViewState) : RunResult :=
  handleSendMessage settings env { s with inputValue := text }

/-- A sequence of submissions, each processed to completion before the next
one is made. -/
def runAll (settings : ChatPluginSettings) : List (String × Env) → ViewState → ViewState
  | [], s => s
  | (t, e) :: rest, s => runAll settings rest (submit settings e t s).state

/-- The user `ChatMessage` a completed submission of `t` appends. -/
def userTurn (e : Env) (t : String) : ChatMessage :=
  { id := toString e.tu1, content := some (.str (jsTrim t))
    sender := .user, timestamp := e.tu2 }

/-- The value a successful inference run hands to the assistant message. -/
def okValue (e : Env) : Option Json :=
  match getLLAMAResponse e.fetch with
  | .ok v => v
  | .error _ => none

/-- The assistant `ChatMessage` a successful submission appends. -/
def asstTurn (e : Env) : ChatMessage :=
  { id := toString e.ta1, content := okValue e
    sender := .assistant, timestamp := e.ta2 }

/-- The message pairs a sequence of successful submissions appends. -/
def turnsOf : List (String × Env) → List ChatMessage
  | [] => []
  | (t, e) :: rest => userTurn e t :: asstTurn e :: turnsOf rest

/-- The sender sequence of `n` completed user/assistant exchanges. -/
def altSenders : Nat → List Sender
  | 0 => []
  | n + 1 => .user :: .assistant :: altSenders n

/-! ## Reduction lemmas for `handleSendMessage` -/

/-- A run that passes both guards and gets a successful inference outcome
appends the user and assistant messages, clears the input, and ends with
`isGenerating = false`. -/
lemma handleSendMessage_success_state (settings : ChatPluginSettings) (env : Env)
    (s : ViewState) (hg : s.isGenerating = false) (hb : jsTrim s.inputValue ≠ "")
    (v : Option Json) (hv : getLLAMAResponse env.fetch = .ok v) :
    (handleSendMessage settings env s).state =
      { messages := s.messages ++
          [{ id := toString env.tu1, content := some (.str (jsTrim s.inputValue)),
             sender := .user, timestamp := env.tu2 },
           { id := toString env.ta1, content := v,
             sender := .assistant, timestamp := env.ta2 }],
        inputValue := "", isGenerating := false } := by
  simp [handleSendMessage, hg, hb, hv]

/-- A run that passes both guards and gets a failed inference outcome appends
only the user message and ends with `isGenerating = false`. -/
lemma handleSendMessage_failure_state (settings : ChatPluginSettings) (env : Env)
    (s : ViewState) (hg : s.isGenerating = false) (hb : jsTrim s.inputValue ≠ "")
    (e : JsError) (hv : getLLAMAResponse env.fetch = .error e) :
    (handleSendMessage settings env s).state =
      { messages := s.messages ++
          [{ id := toString env.tu1, content := some (.str (jsTrim s.inputValue)),
             sender := .user, timestamp := env.tu2 }],
        inputValue := "", isGenerating := false } := by
  simp [handleSendMessage, hg, hb, hv]

/-! ## Claim theorems -/

/-- Claim C2: for every submission made while the panel is in the
`AwaitingReply` state (`isGenerating = true`), the run changes nothing: the
view state (messages, input field, flag) is returned unchanged — so no
Message is appended and the in-flight request's state is untouched — no
network call is issued, and exactly the wait notice is shown. -/
theorem busySubmission_rejected (settings : ChatPluginSettings) (env : Env)
    (s : ViewState) (h : s.isGenerating = true) :
    handleSendMessage settings env s =
      { state := s,
        notices := ["Please wait for the current response to complete"],
        calls := [] } := by
  simp [handleSendMessage, h]

/-- Witness for C2 at a concrete busy state. -/
theorem busySubmission_rejected_witness :
    handleSendMessage ⟨100, "e", true, "t"⟩
        ⟨⟨none, []⟩, fun _ => .error "", .networkError "refused", 0, 0, 0, 0⟩
        ⟨[], "hi", true⟩ =
      { state := ⟨[], "hi", true⟩,
        notices := ["Please wait for the current response to complete"],
        calls := [] } :=
  busySubmission_rejected ⟨100, "e", true, "t"⟩
    ⟨⟨none, []⟩, fun _ => .error "", .networkError "refused", 0, 0, 0, 0⟩
    ⟨[], "hi", true⟩ rfl

/-- Claim C3: every completed run of the submission handler that starts in
`Idle` (`isGenerating = false`) ends back in `Idle`, whatever the
environment — every fetch outcome, success or failure, and every context
outcome — because the reset sits in the `finally`-modelled tail of both
match branches (and the early blank-input return leaves the flag untouched
at `false`). -/
theorem handler_endsIdle (settings : ChatPluginSettings) (env : Env)
    (s : ViewState) (hg : s.isGenerating = false) :
    (handleSendMessage settings env s).state.isGenerating = false := by
  by_cases hb : jsTrim s.inputValue = ""
  · simp [handleSendMessage, hg, hb]
  · match hv : getLLAMAResponse env.fetch with
    | .ok v => rw [handleSendMessage_success_state settings env s hg hb v hv]
    | .error e => rw [handleSendMessage_failure_state settings env s hg hb e hv]

/-- Witness for C3 at a concrete idle state with a failing fetch. -/
theorem handler_endsIdle_witness :
    (handleSendMessage ⟨100, "e", false, "t"⟩
        ⟨⟨none, []⟩, fun _ => .error "", .networkError "refused", 0, 0, 0, 0⟩
        ⟨[], "hi", false⟩).state.isGenerating = false :=
  handler_endsIdle ⟨100, "e", false, "t"⟩
    ⟨⟨none, []⟩, fun _ => .error "", .networkError "refused", 0, 0, 0, 0⟩
    ⟨[], "hi", false⟩ rfl

/-- Claim C10: a submission whose text trims to the empty string, made while
the panel is `Idle`, changes nothing: the whole run result is the unchanged
state (so no Message appended, input field not cleared, still `Idle`), no
notices, and no network calls. -/
theorem blankSubmission_noop (settings : ChatPluginSettings) (env : Env)
    (s : ViewState) (hg : s.isGenerating = false)
    (hb : jsTrim s.inputValue = "") :
    handleSendMessage settings env s = { state := s, notices := [], calls := [] } := by
  simp [handleSendMessage, hg, hb]

/-- Witness for C10 at a concrete whitespace-only input. -/
theorem blankSubmission_noop_witness :
    handleSendMessage ⟨100, "e", true, "t"⟩
        ⟨⟨none, []⟩, fun _ => .ok "doc",
         .response 200 (.value (.obj [("response", .str "ok")])), 0, 0, 0, 0⟩
        ⟨[], "   ", false⟩ =
      { state := ⟨[], "   ", false⟩, notices := [], calls := [] } :=
  blankSubmission_noop ⟨100, "e", true, "t"⟩
    ⟨⟨none, []⟩, fun _ => .ok "doc",
     .response 200 (.value (.obj [("response", .str "ok")])), 0, 0, 0, 0⟩
    ⟨[], "   ", false⟩ rfl (by decide)

/-- Claim C4: when the endpoint answers with a success status and a JSON body
whose `response` field is the string `s`, `getLLAMAResponse` returns exactly
that string; in particular the body `{"response": "hi"}` with status 200
yields `"hi"`. -/
theorem infer_returnsResponseField (status : Nat) (j : Json) (s : String)
    (h1 : 200 ≤ status) (h2 : status ≤ 299)
    (hf : jsGet j "response" = .ok (some (.str s))) :
    getLLAMAResponse (.response status (.value j)) = .ok (some (.str s)) ∧
    getLLAMAResponse (.response 200 (.value (.obj [("response", .str "hi")]))) =
      .ok (some (.str "hi")) := by
  refine ⟨?_, rfl⟩
  simp [getLLAMAResponse, h1, h2, hf]

/-- Witness for C4 at status 200 and body `{"response": "hi"}`. -/
theorem infer_returnsResponseField_witness :
    getLLAMAResponse (.response 200 (.value (.obj [("response", .str "hi")]))) =
      .ok (some (.str "hi")) :=
  (infer_returnsResponseField 200 (.obj [("response", .str "hi")]) "hi"
    (by decide) (by decide) rfl).1

/-- Claim C5: for every HTTP response whose status is outside the success
range [200, 299], `getLLAMAResponse` throws the `Error` whose message embeds
that status code, whatever the body holds — so no reply value is ever
returned (`.error` is never `.ok`). -/
theorem infer_badStatus (status : Nat) (body : BodyRead)
    (h : ¬(200 ≤ status ∧ status ≤ 299)) :
    getLLAMAResponse (.response status body) =
      .error (.error ("HTTP error! status: " ++ toString status)) ∧
    ∀ v : Option Json, getLLAMAResponse (.response status body) ≠ .ok v := by
  have hmain : getLLAMAResponse (.response status body) =
      .error (.error ("HTTP error! status: " ++ toString status)) := by
    simp [getLLAMAResponse, h]
  exact ⟨hmain, fun v hok => by rw [hmain] at hok; exact Except.noConfusion hok⟩

/-- Witness for C5 at status 404. -/
theorem infer_badStatus_witness :
    getLLAMAResponse (.response 404 (.value (.obj [("response", .str "hi")]))) =
      .error (.error "HTTP error! status: 404") :=
  (infer_badStatus 404 (.value (.obj [("response", .str "hi")])) (by decide)).1

/-- Counterexample to Claim C6 as stated: with success status 200 and the
valid JSON body `{"reply": "ok"}` — which lacks the `response` field —
`getLLAMAResponse` does NOT fail with a malformed-response error: it returns
the JavaScript `undefined` value (`.ok none`), because `data.response` is
read without any presence check. -/
theorem infer_missingField_counterexample :
    getLLAMAResponse (.response 200 (.value (.obj [("reply", .str "ok")]))) =
      .ok none := rfl

/-- Claim C6 (amended): for a success-status response, a body that is not
valid JSON makes `getLLAMAResponse` fail with the JSON parse error
(`SyntaxError`); but a body that is valid JSON merely lacking the `response`
field does not fail — the call returns the `undefined` value. -/
theorem infer_malformedBody (status : Nat) (msg : String) (j : Json)
    (h1 : 200 ≤ status) (h2 : status ≤ 299)
    (hj : jsGet j "response" = .ok none) :
    getLLAMAResponse (.response status (.invalid msg)) = .error (.syntaxError msg) ∧
    getLLAMAResponse (.response status (.value j)) = .ok none := by
  constructor
  · simp [getLLAMAResponse, h1, h2]
  · simp [getLLAMAResponse, h1, h2, hj]

/-- Witness for the amended C6 at status 200, an unparseable body, and the
field-free body `{}`. -/
theorem infer_malformedBody_witness :
    getLLAMAResponse (.response 200 (.invalid "Unexpected token")) =
      .error (.syntaxError "Unexpected token") ∧
    getLLAMAResponse (.response 200 (.value (.obj []))) = .ok none :=
  infer_malformedBody 200 "Unexpected token" (.obj []) (by decide) (by decide) rfl

/-- Counterexample to Claim C7 as stated: with context inclusion enabled, a
document text IS obtained — `getCurrentNoteContent` returns `some ""` for an
empty note — yet the issued prompt is the raw user text `"hello"`, not the
substituted template `"CTX: Q:hello"`: the JavaScript guard
`if (noteContent)` treats the empty string as falsy and skips substitution. -/
theorem contextSubstitution_counterexample :
    (getCurrentNoteContent ⟨some ⟨some 0⟩, []⟩ fun _ => .ok "").1 = some "" ∧
    (handleSendMessage ⟨100, "u", true, "CTX:{context} Q:{prompt}"⟩
        ⟨⟨some ⟨some 0⟩, []⟩, fun _ => .ok "",
         .response 200 (.value (.obj [("response", .str "ok")])), 1, 2, 3, 4⟩
        ⟨[], "hello", false⟩).calls = ["hello"] ∧
    jsReplace (jsReplace "CTX:{context} Q:{prompt}" "{context}" "") "{prompt}" "hello" =
      "CTX: Q:hello" ∧
    ("hello" : String) ≠ "CTX: Q:hello" :=
  ⟨rfl, rfl, by decide, by decide⟩

/-- Claim C7 (amended): when context inclusion is enabled and a NON-EMPTY
document text is obtained, the issued prompt is the template transformed by
JavaScript `replace` semantics: the first occurrence of `{context}` is
replaced using the document text and then, in the result, the first
occurrence of `{prompt}` using the user's trimmed text, where each spliced
text is processed by the GetSubstitution `$`-escape scan; a substitution
whose marker is absent is silently skipped; spliced text containing no `$`
passes through the scan unchanged, so it is substituted literally; and the
spec's (dollar-free) example holds: template `"CTX:{context} Q:{prompt}"`,
document `"doc"`, user text `"hello"` yield `"CTX:doc Q:hello"`. -/
theorem contextSubstitution (settings : ChatPluginSettings) (env : Env)
    (s : ViewState) (d : String)
    (hg : s.isGenerating = false) (hb : jsTrim s.inputValue ≠ "")
    (hc : settings.includeContext = true)
    (hd : (getCurrentNoteContent env.workspace env.read).1 = some d)
    (hne : d ≠ "") :
    (handleSendMessage settings env s).calls =
      [jsReplace (jsReplace settings.contextPrompt "{context}" d) "{prompt}"
        (jsTrim s.inputValue)] ∧
    (∀ t pat repl : String, firstIdx pat.data t.data = none →
      jsReplace t pat repl = t) ∧
    (∀ m b a r : List Char, (∀ c ∈ r, c.toNat ≠ 36) →
      getSubstitution m b a r = r) ∧
    jsReplace (jsReplace "CTX:{context} Q:{prompt}" "{context}" "doc") "{prompt}" "hello" =
      "CTX:doc Q:hello" := by
  refine ⟨?_, ?_, getSubstitution_of_noDollar, by decide⟩
  · match hv : getLLAMAResponse env.fetch with
    | .ok v => simp [handleSendMessage, hg, hb, hc, hd, hne, hv]
    | .error e => simp [handleSendMessage, hg, hb, hc, hd, hne, hv]
  · intro t pat repl h
    simp [jsReplace, replaceFirstL, h]

/-- Witness for the amended C7: a concrete run with an open note reading
`"doc"` sends exactly the substituted prompt. -/
theorem contextSubstitution_witness :
    (handleSendMessage ⟨100, "u", true, "CTX:{context} Q:{prompt}"⟩
        ⟨⟨some ⟨some 0⟩, []⟩, fun _ => .ok "doc",
         .response 200 (.value (.obj [("response", .str "ok")])), 1, 2, 3, 4⟩
        ⟨[], "hello", false⟩).calls = ["CTX:doc Q:hello"] :=
  Eq.trans
    (contextSubstitution ⟨100, "u", true, "CTX:{context} Q:{prompt}"⟩
      ⟨⟨some ⟨some 0⟩, []⟩, fun _ => .ok "doc",
       .response 200 (.value (.obj [("response", .str "ok")])), 1, 2, 3, 4⟩
      ⟨[], "hello", false⟩ "doc" rfl (by decide) rfl rfl (by decide)).1
    (by decide)

/-- Counterexample to Claim C8 as stated: with context inclusion enabled and
zero document views open (`activeMd = none`, no markdown leaves), the run
does show the no-active-document notice, but the send is NOT aborted: the
network call is still issued, with the raw user text as its prompt. -/
theorem noActiveDocument_counterexample :
    (handleSendMessage ⟨100, "u", true, "CTX:{context} Q:{prompt}"⟩
        ⟨⟨none, []⟩, fun _ => .ok "doc",
         .response 200 (.value (.obj [("response", .str "ok")])), 1, 2, 3, 4⟩
        ⟨[], "hello", false⟩).notices = ["Please open a note to use as context"] ∧
    (handleSendMessage ⟨100, "u", true, "CTX:{context} Q:{prompt}"⟩
        ⟨⟨none, []⟩, fun _ => .ok "doc",
         .response 200 (.value (.obj [("response", .str "ok")])), 1, 2, 3, 4⟩
        ⟨[], "hello", false⟩).calls = ["hello"] :=
  ⟨rfl, rfl⟩

/-- Claim C8 (amended): when context inclusion is enabled and zero document
views are open, the no-active-document notice is produced first, and the send
proceeds anyway: the network call is made with the raw trimmed user text as
the prompt (no context spliced in). -/
theorem noActiveDocument_notice (settings : ChatPluginSettings) (env : Env)
    (s : ViewState)
    (hg : s.isGenerating = false) (hb : jsTrim s.inputValue ≠ "")
    (hc : settings.includeContext = true)
    (hw : env.workspace.activeMd = none)
    (hl : env.workspace.markdownLeaves = []) :
    (handleSendMessage settings env s).notices.head? =
      some "Please open a note to use as context" ∧
    (handleSendMessage settings env s).calls = [jsTrim s.inputValue] := by
  have hctx : getCurrentNoteContent env.workspace env.read =
      (none, ["Please open a note to use as context"]) := by
    simp [getCurrentNoteContent, hw, hl]
  match hv : getLLAMAResponse env.fetch with
  | .ok v => constructor <;> simp [handleSendMessage, hg, hb, hc, hctx, hv]
  | .error e => constructor <;> simp [handleSendMessage, hg, hb, hc, hctx, hv]

/-- Witness for the amended C8 at a concrete empty workspace. -/
theorem noActiveDocument_notice_witness :
    (handleSendMessage ⟨100, "u", true, "CTX:{context} Q:{prompt}"⟩
        ⟨⟨none, []⟩, fun _ => .ok "doc", .networkError "refused", 1, 2, 3, 4⟩
        ⟨[], "hello", false⟩).notices.head? =
      some "Please open a note to use as context" ∧
    (handleSendMessage ⟨100, "u", true, "CTX:{context} Q:{prompt}"⟩
        ⟨⟨none, []⟩, fun _ => .ok "doc", .networkError "refused", 1, 2, 3, 4⟩
        ⟨[], "hello", false⟩).calls = ["hello"] :=
  noActiveDocument_notice ⟨100, "u", true, "CTX:{context} Q:{prompt}"⟩
    ⟨⟨none, []⟩, fun _ => .ok "doc", .networkError "refused", 1, 2, 3, 4⟩
    ⟨[], "hello", false⟩ rfl (by decide) rfl rfl rfl

/-- Counterexample to Claim C9 as stated: in a run whose four `Date.now()`
calls all land in the same millisecond 5, the user message and the assistant
reply — two distinct Messages — are both assigned the identifier `"5"`:
identifiers are not distinct within a millisecond. -/
theorem messageId_collision_counterexample :
    ((handleSendMessage ⟨100, "u", false, "t"⟩
        ⟨⟨none, []⟩, fun _ => .error "",
         .response 200 (.value (.obj [("response", .str "ok")])), 5, 5, 5, 5⟩
        ⟨[], "hello", false⟩).state.messages.map ChatMessage.id) = ["5", "5"] := by
  decide

/-- Claim C9 (amended): each Message's identifier is `Date.now().toString()`,
the creation-time millisecond count as a decimal string — the user turn gets
the submission-time clock value and the assistant turn the completion-time
clock value — so Messages created in the same millisecond receive equal,
colliding identifiers rather than distinct ones. -/
theorem messageId_isTimestampString (settings : ChatPluginSettings) (env : Env)
    (s : ViewState) (v : Option Json)
    (hg : s.isGenerating = false) (hb : jsTrim s.inputValue ≠ "")
    (hv : getLLAMAResponse env.fetch = .ok v) :
    (handleSendMessage settings env s).state.messages.map ChatMessage.id =
      s.messages.map ChatMessage.id ++ [toString env.tu1, toString env.ta1] := by
  rw [handleSendMessage_success_state settings env s hg hb v hv]
  simp

/-- Witness for the amended C9: a concrete run stamps the user message with
`"1"` and the assistant message with `"3"`. -/
theorem messageId_isTimestampString_witness :
    (handleSendMessage ⟨100, "u", false, "t"⟩
        ⟨⟨none, []⟩, fun _ => .error "",
         .response 200 (.value (.obj [("response", .str "ok")])), 1, 2, 3, 4⟩
        ⟨[], "hello", false⟩).state.messages.map ChatMessage.id = ["1", "3"] :=
  Eq.trans
    (messageId_isTimestampString ⟨100, "u", false, "t"⟩
      ⟨⟨none, []⟩, fun _ => .error "",
       .response 200 (.value (.obj [("response", .str "ok")])), 1, 2, 3, 4⟩
      ⟨[], "hello", false⟩ (some (.str "ok")) rfl (by decide) rfl)
    (by decide)

/-! ## Multi-submission run (Claim C1) -/

/-- One completed successful submission appends exactly the user turn and the
assistant turn, and hands the next submission an `Idle` panel. -/
lemma submit_success (settings : ChatPluginSettings) (env : Env) (t : String)
    (s : ViewState) (hg : s.isGenerating = false) (hb : jsTrim t ≠ "")
    (v : Option Json) (hv : getLLAMAResponse env.fetch = .ok v) :
    (submit settings env t s).state.messages =
      s.messages ++ [userTurn env t, asstTurn env] ∧
    (submit settings env t s).state.isGenerating = false := by
  have hok : okValue env = v := by simp [okValue, hv]
  have h := handleSendMessage_success_state settings env { s with inputValue := t }
    hg hb v hv
  rw [submit, h]
  simp [userTurn, asstTurn, hok]

/-- A sequence of valid, successful submissions starting from an `Idle` panel
appends exactly the user/assistant turn pairs, in order, and ends `Idle`. -/
lemma runAll_spec (settings : ChatPluginSettings) (subs : List (String × Env))
    (s : ViewState) (hg : s.isGenerating = false)
    (hval : ∀ p ∈ subs, jsTrim p.1 ≠ "" ∧ ∃ v, getLLAMAResponse p.2.fetch = .ok v) :
    (runAll settings subs s).messages = s.messages ++ turnsOf subs ∧
    (runAll settings subs s).isGenerating = false := by
  induction subs generalizing s with
  | nil => simp [runAll, turnsOf, hg]
  | cons p rest ih =>
    obtain ⟨t, e⟩ := p
    obtain ⟨hb, v, hv⟩ := hval (t, e) (List.mem_cons_self _ _)
    obtain ⟨hm, hg1⟩ := submit_success settings e t s hg hb v hv
    have hrest : ∀ q ∈ rest, jsTrim q.1 ≠ "" ∧ ∃ v, getLLAMAResponse q.2.fetch = .ok v :=
      fun q hq => hval q (List.mem_cons_of_mem _ hq)
    obtain ⟨ihm, ihg⟩ := ih (submit settings e t s).state hg1 hrest
    constructor
    · rw [runAll, ihm, hm, turnsOf]
      simp
    · rw [runAll]
      exact ihg

/-- The turn list of `n` submissions has length `2 n`. -/
lemma turnsOf_length (subs : List (String × Env)) :
    (turnsOf subs).length = 2 * subs.length := by
  induction subs with
  | nil => simp [turnsOf]
  | cons p rest ih =>
    obtain ⟨t, e⟩ := p
    simp [turnsOf, ih]
    ring

/-- Position `2 i` of the turn list holds the `i`-th submission's user turn
and position `2 i + 1` its assistant turn. -/
lemma turnsOf_getElem (subs : List (String × Env)) :
    ∀ (i : Nat) (p : String × Env), subs[i]? = some p →
      (turnsOf subs)[2 * i]? = some (userTurn p.2 p.1) ∧
      (turnsOf subs)[2 * i + 1]? = some (asstTurn p.2) := by
  induction subs with
  | nil => intro i p hp; simp at hp
  | cons q rest ih =>
    intro i p hp
    obtain ⟨t, e⟩ := q
    match i with
    | 0 =>
      simp at hp
      subst hp
      simp [turnsOf]
    | Nat.succ i =>
      rw [List.getElem?_cons_succ] at hp
      have h2 : 2 * (i + 1) = 2 * i + 1 + 1 := by ring
      have h3 : 2 * (i + 1) + 1 = 2 * i + 1 + 1 + 1 := by ring
      rw [h3, h2, turnsOf]
      rw [List.getElem?_cons_succ, List.getElem?_cons_succ,
        List.getElem?_cons_succ, List.getElem?_cons_succ]
      exact ih i p hp

/-- The senders of the turn list alternate user/assistant starting with
user. -/
lemma turnsOf_senders (subs : List (String × Env)) :
    (turnsOf subs).map ChatMessage.sender = altSenders subs.length := by
  induction subs with
  | nil => simp [turnsOf, altSenders]
  | cons q rest ih =>
    obtain ⟨t, e⟩ := q
    simp [turnsOf, altSenders, userTurn, asstTurn, ih]

/-- Claim C1: starting from an `Idle` panel with no messages, any sequence of
`N` submissions of non-blank text, each processed to completion with a
successful inference outcome, leaves a message list of length `2 N` whose
sender sequence is `N` repetitions of user-then-assistant (alternating,
starting with user), and whose entry at position `2 i` is the `i`-th
submission's user turn — carrying that submission's trimmed text — with the
matching assistant turn at position `2 i + 1`. -/
theorem conversation_alternates (settings : ChatPluginSettings)
    (subs : List (String × Env)) (s₀ : ViewState)
    (hm : s₀.messages = []) (hg : s₀.isGenerating = false)
    (hval : ∀ p ∈ subs, jsTrim p.1 ≠ "" ∧ ∃ v, getLLAMAResponse p.2.fetch = .ok v) :
    (runAll settings subs s₀).messages.length = 2 * subs.length ∧
    (runAll settings subs s₀).messages.map ChatMessage.sender =
      altSenders subs.length ∧
    ∀ (i : Nat) (p : String × Env), subs[i]? = some p →
      (runAll settings subs s₀).messages[2 * i]? = some (userTurn p.2 p.1) ∧
      (runAll settings subs s₀).messages[2 * i + 1]? = some (asstTurn p.2) := by
  have hrun := (runAll_spec settings subs s₀ hg hval).1
  rw [hrun, hm, List.nil_append]
  exact ⟨turnsOf_length subs, turnsOf_senders subs, turnsOf_getElem subs⟩

/-- Witness for C1: two concrete successful submissions leave four
messages. -/
theorem conversation_alternates_witness :
    (runAll ⟨100, "u", false, "t"⟩
        [("hi", ⟨⟨none, []⟩, fun _ => .error "",
           .response 200 (.value (.obj [("response", .str "a")])), 1, 1, 2, 2⟩),
         ("there", ⟨⟨none, []⟩, fun _ => .error "",
           .response 200 (.value (.obj [("response", .str "b")])), 3, 3, 4, 4⟩)]
        ⟨[], "", false⟩).messages.length = 2 * 2 :=
  (conversation_alternates ⟨100, "u", false, "t"⟩
    [("hi", ⟨⟨none, []⟩, fun _ => .error "",
       .response 200 (.value (.obj [("response", .str "a")])), 1, 1, 2, 2⟩),
     ("there", ⟨⟨none, []⟩, fun _ => .error "",
       .response 200 (.value (.obj [("response", .str "b")])), 3, 3, 4, 4⟩)]
    ⟨[], "", false⟩ rfl rfl
    (by
      intro p hp
      simp only [List.mem_cons, List.not_mem_nil, or_false] at hp
      rcases hp with rfl | rfl
      · exact ⟨by decide, some (.str "a"), rfl⟩
      · exact ⟨by decide, some (.str "b"), rfl⟩)).1

end Obsidillama
